import Mathlib

/-!
Verification of the webhook-testing-site server and tunnel agent.

The embedding models, faithfully to the TypeScript source:
  * `shared/schema.ts` — the `Endpoint` and `Request` (CapturedRequest) records;
  * `server/storage.ts` — `DbStorage.getEndpoint`, `getEndpointBySlug`,
    `createRequest`, `getRequests`, `updateEndpointResponse`;
  * `server/routes.ts` — the `app.all("/webhook/:slug")` ingestion handler,
    the `app.get(listRequests)` handler, the `app.patch(.../response)` wrapper
    and the socket.io `connection` handlers (`join-dashboard`, `register-tunnel`);
  * the CLI tunnel agent — its `tunnel-request` handler.

JavaScript-level behaviour that the code relies on is modelled explicitly:
truthiness (`x || d`, `x ? a : b`), `JSON.stringify`, `Object.entries`,
string coercion of header values, Node's incoming-header combining rules and
`res.setHeader` validation, and `String.prototype.replace` (first occurrence).
Machine floats do not occur on the modelled paths; JSON numbers that reach the
modelled code are integers and are embedded as `Int`.

Stored JSON text columns are modelled by their parsed content where the code
round-trips them through `JSON.stringify`/`JSON.parse` (headers of a captured
request), and by the literal produced text where the code stores text
(`queryParams`, `body`).
-/

namespace WebhookSite

/-- JSON values, as produced by `JSON.parse` / consumed by `JSON.stringify`.
Numbers are integers (the only numbers occurring on the modelled paths). -/
inductive JsonVal where
  | str (s : String)
  | num (n : Int)
  | jbool (b : Bool)
  | null
  | arr (xs : List JsonVal)
  | obj (fields : List (String × JsonVal))

/-- `JSON.stringify` escaping of one character inside a string literal. -/
def jsonEscapeChar (c : Char) : List Char :=
  if c = '"' then ['\\', '"']
  else if c = '\\' then ['\\', '\\']
  else if c = '\n' then ['\\', 'n']
  else if c = '\r' then ['\\', 'r']
  else if c = '\t' then ['\\', 't']
  else [c]

/-- `JSON.stringify` escaping of a string body. -/
def jsonEscape (s : String) : String := String.mk (s.data.flatMap jsonEscapeChar)

/-- `JSON.stringify` applied to a string value: quote and escape. -/
def jsonQuote (s : String) : String := "\"" ++ jsonEscape s ++ "\""

mutual

/-- `JSON.stringify` on a JSON value. -/
def jsonStringify : JsonVal → String
  | .str s => jsonQuote s
  | .num n => toString n
  | .jbool b => cond b "true" "false"
  | .null => "null"
  | .arr xs => "[" ++ jsonStringifyElems xs ++ "]"
  | .obj fs => "\x7b" ++ jsonStringifyFields fs ++ "\x7d"

/-- Comma-separated serialization of JSON array elements. -/
def jsonStringifyElems : List JsonVal → String
  | [] => ""
  | [x] => jsonStringify x
  | x :: y :: rest => jsonStringify x ++ "," ++ jsonStringifyElems (y :: rest)

/-- Comma-separated serialization of JSON object fields. -/
def jsonStringifyFields : List (String × JsonVal) → String
  | [] => ""
  | [(k, v)] => jsonQuote k ++ ":" ++ jsonStringify v
  | (k, v) :: y :: rest => jsonQuote k ++ ":" ++ jsonStringify v ++ "," ++ jsonStringifyFields (y :: rest)

end

mutual

/-- JavaScript `String(v)` coercion of a JSON value, as applied by Node when a
non-string value is handed to `res.setHeader`. Objects print as
`[object Object]`; arrays join their elements with `,` (null elements
become the empty string, per `Array.prototype.join`). -/
def jsString : JsonVal → String
  | .str s => s
  | .num n => toString n
  | .jbool b => cond b "true" "false"
  | .null => "null"
  | .arr xs => jsArrayJoin xs
  | .obj _ => "[object Object]"

/-- `Array.prototype.toString`: elements joined with `,`, null as empty. -/
def jsArrayJoin : List JsonVal → String
  | [] => ""
  | [.null] => ""
  | [x] => jsString x
  | .null :: y :: rest => "," ++ jsArrayJoin (y :: rest)
  | x :: y :: rest => jsString x ++ "," ++ jsArrayJoin (y :: rest)

end

/-- `Object.entries(v)` for a parsed JSON value. `null` throws a `TypeError`
(modelled as `none`); objects list their fields; arrays and strings list
index/element pairs; other primitives have no own enumerable properties. -/
def jsObjectEntries : JsonVal → Option (List (String × JsonVal))
  | .null => none
  | .obj fs => some fs
  | .arr xs => some (xs.enum.map (fun p => (toString p.1, p.2)))
  | .str s => some (s.data.enum.map (fun p => (toString p.1, JsonVal.str (String.mk [p.2]))))
  | .num _ => some []
  | .jbool _ => some []

/-- JavaScript truthiness of a parsed JSON value (`0`, `""`, `false`, `null`
are falsy). -/
def jsTruthyJson : JsonVal → Bool
  | .num n => n != 0
  | .str s => s != ""
  | .jbool b => b
  | .null => false
  | .arr _ => true
  | .obj _ => true

/-- `x || null` on an optional string: the empty string collapses to null. -/
def normOpt : Option String → Option String
  | some "" => none
  | x => x

/-- `v || d` on an optional integer (`0` and absent are falsy). -/
def jsOrInt (v : Option Int) (d : Int) : Int :=
  match v with
  | some n => if n = 0 then d else n
  | none => d

/-- `v || d` on an optional string (`""` and absent are falsy). -/
def jsOrStr (v : Option String) (d : String) : String :=
  match v with
  | some s => if s = "" then d else s
  | none => d

/-- Character-wise ASCII lowercasing (`String.prototype.toLowerCase` on the
header names occurring here). -/
def strToLower (s : String) : String := String.mk (s.data.map Char.toLower)

/-! ## Incoming headers: Node's combining of duplicate header names

Node lowercases incoming header names and combines duplicates into
`req.headers`: for the headers in `nodeDiscardDupHeaders` only the first
value is kept; `set-cookie` collects all values into an array; `cookie`
values are joined with `"; "`; all other duplicates are joined with `", "`. -/

/-- A value in `req.headers`: a single string, or an array of strings
(`set-cookie`). -/
inductive HeaderValue where
  | single (s : String)
  | multi (xs : List String)
deriving DecidableEq, Repr

/-- The incoming headers whose duplicates Node discards (first value wins). -/
def nodeDiscardDupHeaders : List String :=
  ["age", "authorization", "content-length", "content-type", "etag",
   "expires", "from", "host", "if-modified-since", "if-unmodified-since",
   "last-modified", "location", "max-forwards", "proxy-authorization",
   "referer", "retry-after", "server", "user-agent"]

/-- The separator Node uses when joining duplicate values of header `k`. -/
def nodeJoinSep (k : String) : String := if k = "cookie" then "; " else ", "

/-- Add one incoming header with (lowercased) key `k` and value `v` to the
accumulated `req.headers` map, following Node's rules: the first occurrence
of a key keeps its position (JS object property order); a fresh key is
appended (`set-cookie` as an array, others as a string); a repeated key is
discarded, joined, or pushed onto the array, depending on the header. -/
def addIncomingHeaderL (k v : String) : List (String × HeaderValue) → List (String × HeaderValue)
  | [] => [(k, if k = "set-cookie" then .multi [v] else .single v)]
  | (k₀, hv) :: rest =>
      if k₀ = k then
        match hv with
        | .single old =>
            if k ∈ nodeDiscardDupHeaders then (k₀, hv) :: rest
            else (k, .single (old ++ nodeJoinSep k ++ v)) :: rest
        | .multi xs => (k, .multi (xs ++ [v])) :: rest
      else (k₀, hv) :: addIncomingHeaderL k v rest

/-- `req.headers`: Node's combined header map built from the raw header list
in transmission order, with names lowercased. -/
def nodeCombineHeaders (raw : List (String × String)) : List (String × HeaderValue) :=
  raw.foldl (fun m p => addIncomingHeaderL (strToLower p.1) p.2 m) []

/-- Property lookup on the stored header map. -/
def lookupHeader : List (String × HeaderValue) → String → Option HeaderValue
  | [], _ => none
  | (k₀, hv) :: rest, k => if k₀ = k then some hv else lookupHeader rest k

/-- All values provided for header `k` (already lowercased) in a raw header
list, in order. -/
def valuesOf (k : String) (raw : List (String × String)) : List String :=
  (raw.filter (fun p => strToLower p.1 = k)).map (fun p => p.2)

/-- A provided header value is retained by a stored header value: literally a
member of the array for array-valued headers, an infix of the joined string
otherwise. -/
def valueRetained (hv : HeaderValue) (v : String) : Prop :=
  match hv with
  | .single s => v.data <:+: s.data
  | .multi xs => v ∈ xs

/-! ## Data model (`shared/schema.ts`) -/

/-- An endpoint row (`endpoints` table). Timestamps are integers. -/
structure Endpoint where
  id : String
  userId : Option String
  uniqueSlug : String
  name : Option String
  description : Option String
  customDomain : Option String
  expiresAt : Option Int
  maxRequests : Option Int
  responseStatus : Option Int
  responseHeaders : Option JsonVal
  responseBody : Option String
  forwardUrl : Option String
  isActive : Bool
  createdAt : Int
  updatedAt : Int

/-- A captured request row (`requests` table). The `headers` column stores
JSON text; it is modelled by its parsed content (the code always writes
`JSON.stringify(req.headers)` there). `queryParams` and `body` are modelled
as the literal stored text. -/
structure Request where
  id : String
  endpointId : String
  method : String
  path : Option String
  timestamp : Int
  queryParams : Option String
  headers : List (String × HeaderValue)
  body : Option String
  bodySize : Option Int
  contentType : Option String
  ipAddress : Option String
  userAgent : Option String
  processingTimeMs : Option Int
deriving DecidableEq, Repr

/-- The database state. -/
structure Db where
  endpoints : List Endpoint
  requests : List Request

/-! ## Storage layer (`server/storage.ts`) -/

/-- `DbStorage.getEndpoint`: first row with the given id. -/
def getEndpoint (db : Db) (id : String) : Option Endpoint :=
  db.endpoints.find? (fun e => e.id == id)

/-- `DbStorage.getEndpointBySlug`: first row with the given slug. -/
def getEndpointBySlug (db : Db) (slug : String) : Option Endpoint :=
  db.endpoints.find? (fun e => e.uniqueSlug == slug)

/-- The ordering of `getRequests`: descending timestamp. -/
def newerFirst (a b : Request) : Prop := b.timestamp ≤ a.timestamp

instance : DecidableRel newerFirst :=
  fun a b => inferInstanceAs (Decidable (b.timestamp ≤ a.timestamp))

/-- `DbStorage.getRequests`: rows of the endpoint, most recent first,
limited to 100. -/
def getRequests (db : Db) (endpointId : String) : List Request :=
  (List.insertionSort newerFirst
    (db.requests.filter (fun r => r.endpointId == endpointId))).take 100

/-- The partial update accepted by `updateEndpointResponse`, after the PATCH
route's preprocessing (`parseInt` on a truthy `responseStatus`); `none`
means the field was absent (`undefined`). -/
structure RespPatch where
  responseStatus : Option Int
  responseHeaders : Option JsonVal
  responseBody : Option String

/-- The field merge performed by `DbStorage.updateEndpointResponse`: provided
fields overwrite, absent fields are untouched, and `updatedAt` is set to the
current time unconditionally. -/
def applyRespUpdate (now : Int) (p : RespPatch) (e : Endpoint) : Endpoint :=
  { e with
    updatedAt := now
    responseStatus := match p.responseStatus with
      | some s => some s
      | none => e.responseStatus
    responseHeaders := match p.responseHeaders with
      | some v => some v
      | none => e.responseHeaders
    responseBody := match p.responseBody with
      | some b => some b
      | none => e.responseBody }

/-- `DbStorage.updateEndpointResponse`: `none` for an unknown id, otherwise
the merged endpoint together with the updated database. -/
def updateEndpointResponse (db : Db) (now : Int) (id : String) (p : RespPatch) :
    Option Endpoint × Db :=
  match getEndpoint db id with
  | none => (none, db)
  | some e =>
      let newRows := db.endpoints.map (fun x => if x.id == id then applyRespUpdate now p x else x)
      (some (applyRespUpdate now p e), { db with endpoints := newRows })

/-! ## Fan-out rooms (socket.io `connection` handler in `server/routes.ts`) -/

/-- Live room membership: pairs of (socket id, room name). -/
abbrev RoomState := List (String × String)

/-- `socket.join(room)`: adds the socket to the room (idempotent); no other
membership is touched. -/
def joinRoom (st : RoomState) (sid room : String) : RoomState :=
  if (sid, room) ∈ st then st else st ++ [(sid, room)]

/-- Handler of the `join-dashboard` event. -/
def onJoinDashboard (st : RoomState) (sid endpointId : String) : RoomState :=
  joinRoom st sid ("dashboard:" ++ endpointId)

/-- Handler of the `register-tunnel` event. -/
def onRegisterTunnel (st : RoomState) (sid endpointId : String) : RoomState :=
  joinRoom st sid ("tunnel:" ++ endpointId)

/-- All rooms a socket is currently a member of. -/
def roomsOf (st : RoomState) (sid : String) : List String :=
  (st.filter (fun p => p.1 == sid)).map (fun p => p.2)

/-- All sockets currently in a room. -/
def roomMembers (st : RoomState) (room : String) : List String :=
  (st.filter (fun p => p.2 == room)).map (fun p => p.1)

/-! ## Response synthesis (tail of the `/webhook/:slug` handler) -/

/-- The characters Node's `validateHeaderName` accepts (HTTP token). -/
def headerNameCharOk (c : Char) : Bool :=
  c.isAlpha || c.isDigit ||
    c ∈ ['!', '#', '$', '%', '&', '*', '+', '-', '.', '^', '_', '|', '~', '\x27', '\x60']

/-- Node accepts a header name iff it is a nonempty HTTP token. -/
def validHeaderName (s : String) : Bool :=
  s != "" && s.data.all headerNameCharOk

/-- Node accepts a header value iff every char is `\t`, printable ASCII, or
in `0x80`–`0xff` (`checkInvalidHeaderChar`). -/
def validHeaderValue (s : String) : Bool :=
  s.data.all (fun c =>
    c = '\t' || (0x20 ≤ c.toNat && c.toNat ≤ 0x7e) || (0x80 ≤ c.toNat && c.toNat ≤ 0xff))

/-- `res.setHeader`: header names are matched case-insensitively; setting an
existing name replaces its value, otherwise the header is appended. -/
def nodeSetHeader (hs : List (String × String)) (k v : String) : List (String × String) :=
  if hs.any (fun p => strToLower p.1 == strToLower k) then
    hs.map (fun p => if strToLower p.1 == strToLower k then (k, v) else p)
  else hs ++ [(k, v)]

/-- The `Object.entries(responseHeaders).forEach(setHeader)` loop. Each value
is coerced to a string; an invalid name or value makes `setHeader` throw,
which aborts the loop (`false`) with the headers applied so far. -/
def applyHeadersAcc (hs : List (String × String)) :
    List (String × JsonVal) → List (String × String) × Bool
  | [] => (hs, true)
  | (k, v) :: rest =>
      let vs := jsString v
      if validHeaderName k && validHeaderValue vs then
        applyHeadersAcc (nodeSetHeader hs k vs) rest
      else (hs, false)

/-- Parse the endpoint's `responseHeaders` column (`{}` when null) and apply
every entry with `res.setHeader`. Returns the headers set on the response
and whether the loop completed without throwing. -/
def synthesizeHeaders (e : Endpoint) : List (String × String) × Bool :=
  match e.responseHeaders with
  | none => ([], true)
  | some v =>
      match jsObjectEntries v with
      | none => ([], false)
      | some entries => applyHeadersAcc [] entries


/-! ## The ingestion handler `app.all("/webhook/:slug")` -/

/-- The inbound HTTP request as Express presents it to the handler:
`req.headers` is Node's combined header map, `req.body` is the parsed JSON
body (absent when no body parser produced one), `req.query` the parsed query
map. -/
structure Inbound where
  method : String
  originalUrl : String
  headers : List (String × HeaderValue)
  body : Option JsonVal
  query : List (String × String)
  contentType : Option String
  ip : Option String
  userAgent : Option String

/-- The HTTP response sent to the webhook caller. -/
structure HttpResponse where
  status : Int
  headers : List (String × String)
  body : String
deriving DecidableEq, Repr

/-- The observable actions of one handler run, in program order. -/
inductive Action where
  | persist (r : Request)
  | emitDashboard (endpointId : String) (r : Request)
  | emitTunnel (endpointId : String) (r : Request)
  | respond (status : Int) (body : String)
deriving DecidableEq, Repr

/-- The `requestData` object built at lines 188–200 of `server/routes.ts`,
before it is handed to `storage.createRequest`. -/
structure RequestData where
  endpointId : String
  method : String
  path : String
  headersMap : List (String × HeaderValue)
  body : Option String
  queryJson : String
  contentType : Option String
  ipAddress : Option String
  userAgent : Option String
  bodySize : Int

/-- Build `requestData` from the endpoint and the inbound request:
`body` is `JSON.stringify(req.body)` when `req.body` is truthy, else null;
`queryParams` is `JSON.stringify(req.query)`; `bodySize` is the length of the
stringified body (0 when falsy); `contentType`/`ip`/`userAgent` fall back to
null when falsy. -/
def mkRequestData (e : Endpoint) (inb : Inbound) : RequestData :=
  { endpointId := e.id
    method := inb.method
    path := inb.originalUrl
    headersMap := inb.headers
    body := match inb.body with
      | some v => if jsTruthyJson v then some (jsonStringify v) else none
      | none => none
    queryJson := jsonStringify (.obj (inb.query.map (fun p => (p.1, .str p.2))))
    contentType := normOpt inb.contentType
    ipAddress := normOpt inb.ip
    userAgent := normOpt inb.userAgent
    bodySize := match inb.body with
      | some v => if jsTruthyJson v then (jsonStringify v).length else 0
      | none => 0 }

/-- `DbStorage.createRequest`: assigns a fresh id and the persistence-time
timestamp, and coerces falsy fields to null. `queryParams` arrives as a
string and is stringified a second time (`JSON.stringify` of a string
quotes it); `headers` arrives as a string and is stored as-is;
`bodySize || null` maps 0 to null; `processingTimeMs` is stored null. -/
def storageCreateRequest (newId : String) (now : Int) (rd : RequestData) : Request :=
  { id := newId
    endpointId := rd.endpointId
    method := rd.method
    path := if rd.path = "" then none else some rd.path
    timestamp := now
    queryParams := if rd.queryJson = "" then none else some (jsonQuote rd.queryJson)
    headers := rd.headersMap
    body := normOpt rd.body
    bodySize := if rd.bodySize = 0 then none else some rd.bodySize
    contentType := normOpt rd.contentType
    ipAddress := normOpt rd.ipAddress
    userAgent := normOpt rd.userAgent
    processingTimeMs := none }

/-- Everything one run of the ingestion handler produces. -/
structure HandlerOut where
  db : Db
  trace : List Action
  response : HttpResponse
  dashboardDelivery : List String
  tunnelDelivery : List String

/-- The 404 reply for an unknown slug or inactive endpoint. -/
def notFoundResponse : HttpResponse :=
  { status := 404, headers := [], body := "Endpoint not found or inactive" }

/-- The catch-all 500 reply; headers already set on the response remain. -/
def serverErrorResponse (hs : List (String × String)) : HttpResponse :=
  { status := 500, headers := hs, body := "Internal server error" }

/-- The reply computed at lines 213–225 of `server/routes.ts`: the configured
status (`|| 200`), the applied custom headers, and the configured body
(`|| "OK"`). A throw while applying headers lands in the catch, which sends
500 `Internal server error`; headers applied before the throw stay set. -/
def synthesizeResponse (e : Endpoint) : HttpResponse :=
  if (synthesizeHeaders e).2 then
    { status := jsOrInt e.responseStatus 200
      headers := (synthesizeHeaders e).1
      body := jsOrStr e.responseBody "OK" }
  else serverErrorResponse (synthesizeHeaders e).1

/-- The `app.all("/webhook/:slug")` handler of `server/routes.ts`.

Inputs beyond the request: `now` is the persistence-time clock value,
`elapsed` the measured processing time assigned to the emitted record,
`newId` the generated record id, and `dbFail` whether the storage insert
throws (the `catch` branch).

Steps, in source order: slug lookup; 404 when not found or inactive;
`storage.createRequest`; mutation of `processingTimeMs` on the saved record;
emit `new-request` to room `dashboard:{id}` and `tunnel-request` to room
`tunnel:{id}`; compute the configured status, headers and body and send them
(any throw while applying headers falls into the catch, which sends 500 with
the headers applied so far kept on the response). -/
def handleWebhook (db : Db) (rooms : RoomState) (slug : String) (inb : Inbound)
    (now elapsed : Int) (newId : String) (dbFail : Bool) : HandlerOut :=
  match getEndpointBySlug db slug with
  | none =>
      { db := db, trace := [.respond 404 notFoundResponse.body],
        response := notFoundResponse, dashboardDelivery := [], tunnelDelivery := [] }
  | some e =>
      if !e.isActive then
        { db := db, trace := [.respond 404 notFoundResponse.body],
          response := notFoundResponse, dashboardDelivery := [], tunnelDelivery := [] }
      else if dbFail then
        { db := db, trace := [.respond 500 "Internal server error"],
          response := serverErrorResponse [], dashboardDelivery := [], tunnelDelivery := [] }
      else
        let saved := storageCreateRequest newId now (mkRequestData e inb)
        let db' : Db := { db with requests := db.requests ++ [saved] }
        let emitted : Request := { saved with processingTimeMs := some elapsed }
        let resp : HttpResponse := synthesizeResponse e
        { db := db'
          trace := [.persist saved, .emitDashboard e.id emitted, .emitTunnel e.id emitted,
                    .respond resp.status resp.body]
          response := resp
          dashboardDelivery := roomMembers rooms ("dashboard:" ++ e.id)
          tunnelDelivery := roomMembers rooms ("tunnel:" ++ e.id) }

/-! ## The list-requests route `app.get(api.webhooks.listRequests.path)` -/

/-- The list-requests handler: no endpoint-existence check, just
`storage.getRequests` behind a 200 `res.json`. -/
def handleListRequests (db : Db) (id : String) : Int × List Request :=
  (200, getRequests db id)

/-! ## The tunnel agent (`cli.js`), `tunnel-request` handler -/

/-- `String.prototype.replace` with a string pattern: replace the first
occurrence only (on character lists). -/
def replaceFirstL (pat rep : List Char) : List Char → List Char
  | [] => if pat.isPrefixOf ([] : List Char) then rep else []
  | c :: rest =>
      if pat.isPrefixOf (c :: rest) then rep ++ (c :: rest).drop pat.length
      else c :: replaceFirstL pat rep rest

/-- `s.replace(pat, rep)` for a string pattern (first occurrence). -/
def jsReplaceFirst (s pat rep : String) : String :=
  String.mk (replaceFirstL pat.data rep.data s.data)

/-- The outbound `axios({...})` call issued by the agent. -/
structure AxiosCall where
  method : String
  url : String
  headers : List (String × HeaderValue)
  data : Option String
  params : Option String
deriving DecidableEq, Repr

/-- One handled `tunnel-request` message: logged line, the slug-stripped
local URL the agent computes, and the HTTP call it issues. -/
structure AgentStep where
  logLine : String
  localUrl : String
  call : AxiosCall
deriving DecidableEq, Repr

/-- The agent's `tunnel-request` handler. It computes
`localUrl = http://localhost:PORT + path.replace("/webhook/" + id, "")`
but then issues the axios call against the local target's root `/`,
passing the record's method, headers and body; `params` is
`request.query`, a field the captured record does not carry, hence absent.
A record with a null `path` makes `path.replace` throw (`none`). -/
def onTunnelRequest (webhookId localPort : String) (r : Request) : Option AgentStep :=
  match r.path with
  | none => none
  | some p =>
      some
        { logLine := "[" ++ r.method ++ "] " ++ p
          localUrl := "http://localhost:" ++ localPort ++
            jsReplaceFirst p ("/webhook/" ++ webhookId) ""
          call :=
            { method := r.method
              url := "http://localhost:" ++ localPort ++ "/"
              headers := r.headers
              data := r.body
              params := none } }

/-! ## Supporting lemmas -/

/-- A list is a Boolean prefix of itself followed by anything. -/
theorem isPrefixOfSelfAppend (l t : List Char) : l.isPrefixOf (l ++ t) = true := by
  induction l with
  | nil => cases t <;> rfl
  | cons c cs ih => simp [List.isPrefixOf, ih]

/-- `replace` on a string starting with the (nonempty) pattern drops exactly
that prefix. -/
theorem replaceFirstL_self_append (pat rep t : List Char) (h : pat ≠ []) :
    replaceFirstL pat rep (pat ++ t) = rep ++ t := by
  match pat, h with
  | c :: cs, _ =>
      have hstep : replaceFirstL (c :: cs) rep ((c :: cs) ++ t)
          = rep ++ ((c :: cs) ++ t).drop (c :: cs).length := by
        show (if (c :: cs).isPrefixOf ((c :: cs) ++ t) then
                rep ++ ((c :: cs) ++ t).drop (c :: cs).length
              else c :: replaceFirstL (c :: cs) rep (cs ++ t))
            = rep ++ ((c :: cs) ++ t).drop (c :: cs).length
        rw [isPrefixOfSelfAppend]
        simp
      rw [hstep, List.drop_left]

/-- Rebuilding a string from its characters is the identity. -/
theorem strMkData (s : String) : String.mk s.data = s := by
  cases s
  rfl

/-- `s.replace(pat, "")` where `s = pat ++ sub` and `pat` is nonempty yields
`sub`. -/
theorem jsReplaceFirst_strip (pat sub : String) (h : pat.data ≠ []) :
    jsReplaceFirst (pat ++ sub) pat "" = sub := by
  unfold jsReplaceFirst
  rw [String.data_append, replaceFirstL_self_append pat.data _ sub.data h]
  show String.mk ([] ++ sub.data) = sub
  rw [List.nil_append, strMkData]

/-- `roomsOf` distributes over appended membership tables. -/
theorem roomsOf_append (st₁ st₂ : RoomState) (sid : String) :
    roomsOf (st₁ ++ st₂) sid = roomsOf st₁ sid ++ roomsOf st₂ sid := by
  simp [roomsOf, List.filter_append]

/-- After `socket.join(room)`, the socket is a member of the room. -/
theorem mem_roomsOf_joinRoom (st : RoomState) (sid room : String) :
    room ∈ roomsOf (joinRoom st sid room) sid := by
  unfold joinRoom
  by_cases h : (sid, room) ∈ st
  · simp only [if_pos h]
    simp only [roomsOf, List.mem_map, List.mem_filter]
    exact ⟨(sid, room), ⟨h, by simp⟩, rfl⟩
  · rw [if_neg h, roomsOf_append]
    apply List.mem_append_right
    simp [roomsOf]

/-- `socket.join` never removes an existing membership. -/
theorem roomsOf_joinRoom_mono (st : RoomState) (sid' room' sid room : String)
    (h : room ∈ roomsOf st sid) : room ∈ roomsOf (joinRoom st sid' room') sid := by
  unfold joinRoom
  by_cases hc : (sid', room') ∈ st
  · rwa [if_pos hc]
  · rw [if_neg hc, roomsOf_append]
    exact List.mem_append_left _ h

/-- `socket.join` of a room the socket is already in changes nothing. -/
theorem joinRoom_idem (st : RoomState) (sid room : String) :
    joinRoom (joinRoom st sid room) sid room = joinRoom st sid room := by
  unfold joinRoom
  by_cases h : (sid, room) ∈ st
  · simp [h]
  · rw [if_neg h]
    have h2 : (sid, room) ∈ st ++ [(sid, room)] := List.mem_append_right st (by simp)
    simp [h2]

/-! ## Claim C7 -/

/-- C7 counterexample: the claim says a later `register-tunnel` naming a
different endpoint/role replaces the connection's prior membership, so a
connection holds at most one membership; but a socket that joins
`dashboard:A` and then registers `tunnel:B` holds both memberships. -/
theorem c7_counterexample_membership_accumulates :
    roomsOf (onRegisterTunnel (onJoinDashboard [] "sock" "A") "sock" "B") "sock"
      = ["dashboard:A", "tunnel:B"] ∧
    (roomsOf (onRegisterTunnel (onJoinDashboard [] "sock" "A") "sock" "B") "sock").length
      = 2 := by
  constructor
  · rfl
  · rfl

/-- C7 (amended): a later `join-dashboard` or `register-tunnel` ADDS a room
membership and leaves prior memberships intact — memberships accumulate for
one connection; joining the same room again is a no-op. -/
theorem c7_amended_joins_accumulate (st : RoomState) (sid e₁ e₂ : String) :
    ("dashboard:" ++ e₁) ∈ roomsOf (onRegisterTunnel (onJoinDashboard st sid e₁) sid e₂) sid ∧
    ("tunnel:" ++ e₂) ∈ roomsOf (onRegisterTunnel (onJoinDashboard st sid e₁) sid e₂) sid ∧
    (∀ room ∈ roomsOf st sid,
      room ∈ roomsOf (onRegisterTunnel (onJoinDashboard st sid e₁) sid e₂) sid) ∧
    (∀ st₀ : RoomState, ∀ sid₀ room₀ : String,
      joinRoom (joinRoom st₀ sid₀ room₀) sid₀ room₀ = joinRoom st₀ sid₀ room₀) := by
  refine ⟨?_, ?_, ?_, ?_⟩
  · exact roomsOf_joinRoom_mono _ _ _ _ _ (mem_roomsOf_joinRoom st sid _)
  · exact mem_roomsOf_joinRoom _ sid _
  · intro room hroom
    exact roomsOf_joinRoom_mono _ _ _ _ _ (roomsOf_joinRoom_mono _ _ _ _ _ hroom)
  · intro st₀ sid₀ room₀
    exact joinRoom_idem st₀ sid₀ room₀

/-- Witness for the amended C7 at concrete values. -/
theorem c7_amended_witness :
    ("dashboard:A" ∈ roomsOf (onRegisterTunnel (onJoinDashboard [] "s" "A") "s" "B") "s") ∧
    ("tunnel:B" ∈ roomsOf (onRegisterTunnel (onJoinDashboard [] "s" "A") "s" "B") "s") :=
  ⟨(c7_amended_joins_accumulate [] "s" "A" "B").1,
   (c7_amended_joins_accumulate [] "s" "A" "B").2.1⟩

/-! ## Claim C8 -/

/-- Fixture endpoint for the response-update claims. -/
def epW8 : Endpoint :=
  { id := "ep8", userId := none, uniqueSlug := "s8", name := none, description := none,
    customDomain := none, expiresAt := none, maxRequests := some 100,
    responseStatus := some 200, responseHeaders := none, responseBody := none,
    forwardUrl := none, isActive := true, createdAt := 0, updatedAt := 0 }

/-- Fixture partial update. -/
def patchW8 : RespPatch :=
  { responseStatus := some 201, responseHeaders := none, responseBody := some "done" }

/-- Fixture database for the update claims. -/
def dbW8 : Db := { endpoints := [epW8], requests := [] }

/-- C8 counterexample: applying the same partial update twice does NOT yield
the same Endpoint state as applying it once — `updateEndpointResponse`
unconditionally refreshes `updatedAt`, so the second application (at time 9)
differs from the first (at time 5). -/
theorem c8_counterexample_updatedAt_differs :
    Option.map Endpoint.updatedAt
      (updateEndpointResponse (updateEndpointResponse dbW8 5 "ep8" patchW8).2 9 "ep8" patchW8).1
      = some 9 ∧
    Option.map Endpoint.updatedAt (updateEndpointResponse dbW8 5 "ep8" patchW8).1 = some 5 ∧
    (updateEndpointResponse (updateEndpointResponse dbW8 5 "ep8" patchW8).2 9 "ep8" patchW8).1
      ≠ (updateEndpointResponse dbW8 5 "ep8" patchW8).1 := by
  refine ⟨rfl, rfl, fun h => ?_⟩
  exact absurd (congrArg (Option.map Endpoint.updatedAt) h) (by decide)

/-- C8 (amended): the response-configuration merge is idempotent on every
field except `updatedAt`, which takes the later application's clock value;
in particular two applications at the same instant coincide. -/
theorem c8_amended_idempotent_up_to_updatedAt (now₁ now₂ : Int) (p : RespPatch) (e : Endpoint) :
    applyRespUpdate now₂ p (applyRespUpdate now₁ p e)
      = { applyRespUpdate now₁ p e with updatedAt := now₂ } ∧
    applyRespUpdate now₁ p (applyRespUpdate now₁ p e) = applyRespUpdate now₁ p e := by
  obtain ⟨ps, ph, pb⟩ := p
  constructor
  · cases ps <;> cases ph <;> cases pb <;> rfl
  · cases ps <;> cases ph <;> cases pb <;> rfl

/-! ## Claim C10 -/

/-- C10: listing requests for an endpoint id that does not exist succeeds
with status 200 and the empty list — the route performs no
endpoint-existence check, and storage simply filters by endpoint id. -/
theorem c10_list_requests_unknown_id (db : Db) (id : String)
    (hown : ∀ r ∈ db.requests, ∃ e ∈ db.endpoints, r.endpointId = e.id)
    (hid : ∀ e ∈ db.endpoints, e.id ≠ id) :
    handleListRequests db id = (200, []) := by
  have hfilter : db.requests.filter (fun r => r.endpointId == id) = [] := by
    apply List.filter_eq_nil_iff.mpr
    intro r hr
    obtain ⟨e, he, heq⟩ := hown r hr
    simp only [beq_iff_eq]
    exact fun h => hid e he (heq.symm.trans h)
  simp [handleListRequests, getRequests, hfilter]

/-- Fixture endpoint for the C10 witness. -/
def epW10 : Endpoint :=
  { id := "ep10", userId := none, uniqueSlug := "s10", name := none, description := none,
    customDomain := none, expiresAt := none, maxRequests := some 100,
    responseStatus := some 200, responseHeaders := none, responseBody := none,
    forwardUrl := none, isActive := true, createdAt := 0, updatedAt := 0 }

/-- Fixture captured request for the C10 witness. -/
def reqW10 : Request :=
  { id := "r10", endpointId := "ep10", method := "GET", path := some "/webhook/s10",
    timestamp := 1, queryParams := none, headers := [], body := none, bodySize := none,
    contentType := none, ipAddress := none, userAgent := none, processingTimeMs := none }

/-- Fixture database for the C10 witness. -/
def dbW10 : Db := { endpoints := [epW10], requests := [reqW10] }

/-- Witness for C10: a concrete store with one endpoint and one captured
request, queried with an id that exists nowhere. -/
theorem c10_list_requests_unknown_id_witness :
    (∀ r ∈ dbW10.requests, ∃ e ∈ dbW10.endpoints, r.endpointId = e.id) ∧
    (∀ e ∈ dbW10.endpoints, e.id ≠ "nope") ∧
    handleListRequests dbW10 "nope" = (200, []) :=
  ⟨by decide, by decide,
   c10_list_requests_unknown_id dbW10 "nope" (by decide) (by decide)⟩

/-! ## Claim C9 -/

/-- Fixture captured record delivered to the tunnel agent: a request to
`/webhook/abc/hooks/github` with stored query parameters and body. -/
def recW9 : Request :=
  { id := "r9", endpointId := "ep9", method := "POST",
    path := some "/webhook/abc/hooks/github", timestamp := 4,
    queryParams := some "\"\x7b\x7d\"", headers := [("x-sig", .single "v1")],
    body := some "\x7b\"k\":1\x7d", bodySize := some 7,
    contentType := some "application/json", ipAddress := none, userAgent := none,
    processingTimeMs := some 2 }

/-- C9 counterexample: the agent computes the slug-stripped URL
`http://localhost:3000/hooks/github` but issues its HTTP call against the
local target's root `/`, and forwards no query parameters (it reads
`request.query`, a field the captured record does not carry) — contradicting
the claim that the sub-path is forwarded with the record's query parameters. -/
theorem c9_counterexample_root_forward :
    ∃ st, onTunnelRequest "abc" "3000" recW9 = some st ∧
      st.call.url = "http://localhost:3000/" ∧
      st.localUrl = "http://localhost:3000/hooks/github" ∧
      st.call.url ≠ st.localUrl ∧
      st.call.params = none ∧
      recW9.queryParams ≠ none :=
  ⟨_, rfl, by decide, by decide, by decide, by decide, by decide⟩

/-- C9 (amended): for every `tunnel-request` with a non-null path, the agent
issues exactly one HTTP call carrying the record's method, headers and body
to the local target's ROOT (`/`) with no query parameters; the slug-stripped
URL (`path.replace("/webhook/" + id, "")` appended to the local host) is
computed but never used as the call target. -/
theorem c9_amended_forwards_to_root (webhookId localPort : String) (r : Request) (p : String)
    (hp : r.path = some p) :
    ∃ st, onTunnelRequest webhookId localPort r = some st ∧
      st.call.method = r.method ∧
      st.call.url = "http://localhost:" ++ localPort ++ "/" ∧
      st.call.headers = r.headers ∧
      st.call.data = r.body ∧
      st.call.params = none ∧
      st.localUrl = "http://localhost:" ++ localPort
        ++ jsReplaceFirst p ("/webhook/" ++ webhookId) "" ∧
      (∀ sub : String, p.data = ("/webhook/" ++ webhookId).data ++ sub.data →
        st.localUrl = "http://localhost:" ++ localPort ++ sub) := by
  refine ⟨_, by rw [onTunnelRequest, hp], rfl, rfl, rfl, rfl, rfl, rfl, ?_⟩
  intro sub hsub
  have hpat : ("/webhook/" ++ webhookId).data ≠ [] := by
    rw [String.data_append]
    intro hcontra
    have hlen := congrArg List.length hcontra
    rw [List.length_append] at hlen
    have h9 : ("/webhook/" : String).data.length = 9 := rfl
    rw [h9] at hlen
    simp only [List.length_nil] at hlen
    omega
  have hp2 : p = ("/webhook/" ++ webhookId) ++ sub := by
    have := congrArg String.mk hsub
    rw [strMkData] at this
    rw [this, ← String.data_append, strMkData]
  show "http://localhost:" ++ localPort ++ jsReplaceFirst p ("/webhook/" ++ webhookId) ""
      = "http://localhost:" ++ localPort ++ sub
  rw [hp2, jsReplaceFirst_strip _ _ hpat]

/-- Witness for the amended C9 at the concrete fixture record. -/
theorem c9_amended_witness :
    recW9.path = some "/webhook/abc/hooks/github" ∧
    ∃ st, onTunnelRequest "abc" "3000" recW9 = some st ∧
      st.call.method = "POST" ∧
      st.call.url = "http://localhost:3000/" ∧
      st.call.params = none := by
  refine ⟨rfl, ?_⟩
  obtain ⟨st, h1, h2, h3, _, _, h6, _, _⟩ :=
    c9_amended_forwards_to_root "abc" "3000" recW9 "/webhook/abc/hooks/github" rfl
  exact ⟨st, h1, h2, h3, h6⟩

/-! ## The accepted ingestion path, characterized -/

/-- On a resolvable, active endpoint with a succeeding storage write, the
handler persists the captured record, emits it (with the measured processing
time patched in) to the endpoint's dashboard and tunnel rooms, and replies
with the synthesized response. -/
theorem handleWebhook_accepted (db : Db) (rooms : RoomState) (slug : String) (inb : Inbound)
    (now elapsed : Int) (newId : String) (e : Endpoint)
    (hfind : getEndpointBySlug db slug = some e) (hact : e.isActive = true) :
    handleWebhook db rooms slug inb now elapsed newId false =
      { db := { db with requests :=
                  db.requests ++ [storageCreateRequest newId now (mkRequestData e inb)] }
        trace := [.persist (storageCreateRequest newId now (mkRequestData e inb)),
                  .emitDashboard e.id { storageCreateRequest newId now (mkRequestData e inb) with
                                          processingTimeMs := some elapsed },
                  .emitTunnel e.id { storageCreateRequest newId now (mkRequestData e inb) with
                                       processingTimeMs := some elapsed },
                  .respond (synthesizeResponse e).status (synthesizeResponse e).body]
        response := synthesizeResponse e
        dashboardDelivery := roomMembers rooms ("dashboard:" ++ e.id)
        tunnelDelivery := roomMembers rooms ("tunnel:" ++ e.id) } := by
  unfold handleWebhook
  rw [hfind]
  simp [hact]

/-- Shared inbound fixture: a plain POST with no body and no query. -/
def inbPlain : Inbound :=
  { method := "POST", originalUrl := "/webhook/x", headers := [], body := none,
    query := [], contentType := none, ip := none, userAgent := none }

/-! ## Claim C1 -/

/-- Fixture: an endpoint that is active but expired (`expiresAt = 5`, i.e. in
the past of `now = 10`) and at quota (`maxRequests = 1` with one stored
request). -/
def epW1 : Endpoint :=
  { id := "ep1", userId := none, uniqueSlug := "s1", name := none, description := none,
    customDomain := none, expiresAt := some 5, maxRequests := some 1,
    responseStatus := some 200, responseHeaders := none, responseBody := none,
    forwardUrl := none, isActive := true, createdAt := 0, updatedAt := 0 }

/-- Fixture: the request already stored against `epW1`, filling its quota. -/
def reqW1 : Request :=
  { id := "r0", endpointId := "ep1", method := "GET", path := some "/webhook/s1",
    timestamp := 1, queryParams := none, headers := [], body := none, bodySize := none,
    contentType := none, ipAddress := none, userAgent := none, processingTimeMs := none }

/-- Fixture database for C1. -/
def dbW1 : Db := { endpoints := [epW1], requests := [reqW1] }

/-- C1: evaluated at an endpoint that is both expired and at quota (priority
would demand 410), the handler returns the synthesized 200 "OK" response and
persists a second record — the code checks only not-found/inactive and never
consults `expiresAt`, the stored request count, `maxRequests`, or the body
size, so no 410/429/413 is ever produced by this route. -/
theorem c1_expired_overquota_still_accepted :
    epW1.expiresAt = some 5 ∧ (5 : Int) < 10 ∧
    epW1.maxRequests = some 1 ∧
    (dbW1.requests.filter (fun r => r.endpointId == epW1.id)).length = 1 ∧
    (handleWebhook dbW1 [] "s1" inbPlain 10 2 "rNew" false).response.status = 200 ∧
    (handleWebhook dbW1 [] "s1" inbPlain 10 2 "rNew" false).response.body = "OK" ∧
    (handleWebhook dbW1 [] "s1" inbPlain 10 2 "rNew" false).response.status ≠ 410 ∧
    (handleWebhook dbW1 [] "s1" inbPlain 10 2 "rNew" false).response.status ≠ 429 ∧
    (handleWebhook dbW1 [] "s1" inbPlain 10 2 "rNew" false).db.requests.length = 2 := by
  refine ⟨rfl, by decide, rfl, by decide, ?_, ?_, by decide, by decide, ?_⟩ <;> rfl

/-! ## Claim C3 -/

/-- Fixture: an expired (but active) endpoint for C3. -/
def epW3 : Endpoint :=
  { id := "ep3", userId := none, uniqueSlug := "s3", name := none, description := none,
    customDomain := none, expiresAt := some 5, maxRequests := some 100,
    responseStatus := some 200, responseHeaders := none, responseBody := none,
    forwardUrl := none, isActive := true, createdAt := 0, updatedAt := 0 }

/-- Fixture database for C3: no stored requests yet. -/
def dbW3 : Db := { endpoints := [epW3], requests := [] }

/-- C3: a request to an expired endpoint (`expiresAt = 5 < now = 10`) is NOT
rejected: the handler creates a CapturedRequest (the stored request count
rises from 0 to 1, the new record id is stored) and answers 200, where the
claim requires a 410 rejection with no record created. The handler also
performs no body-size check at all before persisting. -/
theorem c3_expired_request_creates_record :
    epW3.expiresAt = some 5 ∧ (5 : Int) < 10 ∧
    dbW3.requests.length = 0 ∧
    (handleWebhook dbW3 [] "s3" inbPlain 10 2 "r3" false).db.requests.length = 1 ∧
    (handleWebhook dbW3 [] "s3" inbPlain 10 2 "r3" false).db.requests.map Request.id
      = ["r3"] ∧
    (handleWebhook dbW3 [] "s3" inbPlain 10 2 "r3" false).response.status = 200 ∧
    (handleWebhook dbW3 [] "s3" inbPlain 10 2 "r3" false).response.status ≠ 410 := by
  refine ⟨rfl, by decide, rfl, ?_, ?_, ?_, by decide⟩ <;> rfl

/-! ## Claim C4 -/

/-- Fixture: an active endpoint whose stored `responseHeaders` text is the
JSON literal `null` (reachable through the PATCH route, which stores
`JSON.stringify(null)` when the request body carries `responseHeaders:
null`). -/
def epW4 : Endpoint :=
  { id := "ep4", userId := none, uniqueSlug := "s4", name := none, description := none,
    customDomain := none, expiresAt := none, maxRequests := some 100,
    responseStatus := some 201, responseHeaders := some .null,
    responseBody := some "hi", forwardUrl := none, isActive := true,
    createdAt := 0, updatedAt := 0 }

/-- Fixture database for the C4 counterexample. -/
def dbW4 : Db := { endpoints := [epW4], requests := [] }

/-- C4 counterexample: an accepted request (the record IS persisted) whose
endpoint has `responseStatus 201` and `responseBody "hi"` but stored
response headers `null`: `Object.entries(null)` throws, the catch replies
500 `Internal server error` — the response does NOT equal the configured
status and body. -/
theorem c4_counterexample_null_header_config :
    epW4.responseStatus = some 201 ∧ epW4.responseBody = some "hi" ∧
    (handleWebhook dbW4 [] "s4" inbPlain 10 2 "r4" false).db.requests.length = 1 ∧
    (handleWebhook dbW4 [] "s4" inbPlain 10 2 "r4" false).response
      = { status := 500, headers := [], body := "Internal server error" } ∧
    (handleWebhook dbW4 [] "s4" inbPlain 10 2 "r4" false).response.status ≠ 201 ∧
    (handleWebhook dbW4 [] "s4" inbPlain 10 2 "r4" false).response.body ≠ "hi" := by
  refine ⟨rfl, rfl, ?_, ?_, by decide, by decide⟩ <;> rfl

/-- C4 (amended): for every accepted ingestion request whose endpoint's
response-header configuration applies without throwing, the response status
is the configured `responseStatus` (200 when unset or 0) and the response
body is the configured `responseBody` (`"OK"` when unset or empty), and the
response is independent of the connected dashboard/tunnel subscribers; when
applying the header configuration throws, the caller gets 500 instead. -/
theorem c4_amended_configured_response (db : Db) (rooms rooms' : RoomState) (slug : String)
    (inb : Inbound) (now elapsed : Int) (newId : String) (e : Endpoint)
    (hfind : getEndpointBySlug db slug = some e) (hact : e.isActive = true)
    (hok : (synthesizeHeaders e).2 = true) :
    (∀ s : Int, e.responseStatus = some s → s ≠ 0 →
      (handleWebhook db rooms slug inb now elapsed newId false).response.status = s) ∧
    (e.responseStatus = none →
      (handleWebhook db rooms slug inb now elapsed newId false).response.status = 200) ∧
    (∀ b : String, e.responseBody = some b → b ≠ "" →
      (handleWebhook db rooms slug inb now elapsed newId false).response.body = b) ∧
    ((e.responseBody = none ∨ e.responseBody = some "") →
      (handleWebhook db rooms slug inb now elapsed newId false).response.body = "OK") ∧
    (handleWebhook db rooms' slug inb now elapsed newId false).response
      = (handleWebhook db rooms slug inb now elapsed newId false).response := by
  rw [handleWebhook_accepted db rooms slug inb now elapsed newId e hfind hact,
      handleWebhook_accepted db rooms' slug inb now elapsed newId e hfind hact]
  refine ⟨?_, ?_, ?_, ?_, rfl⟩
  · intro s hs hns
    simp [synthesizeResponse, hok, jsOrInt, hs, hns]
  · intro hs
    simp [synthesizeResponse, hok, jsOrInt, hs]
  · intro b hb hnb
    simp [synthesizeResponse, hok, jsOrStr, hb, hnb]
  · intro hb
    rcases hb with hb | hb <;> simp [synthesizeResponse, hok, jsOrStr, hb]

/-- Fixture: a well-configured endpoint for the C4 witness. -/
def epW4a : Endpoint :=
  { id := "ep4a", userId := none, uniqueSlug := "s4a", name := none, description := none,
    customDomain := none, expiresAt := none, maxRequests := some 100,
    responseStatus := some 201, responseHeaders := none, responseBody := some "hello",
    forwardUrl := none, isActive := true, createdAt := 0, updatedAt := 0 }

/-- Fixture database for the C4 witness. -/
def dbW4a : Db := { endpoints := [epW4a], requests := [] }

/-- Witness for the amended C4 at a concrete endpoint configured with
status 201 and body "hello". -/
theorem c4_amended_witness :
    (handleWebhook dbW4a [] "s4a" inbPlain 10 2 "r4a" false).response.status = 201 ∧
    (handleWebhook dbW4a [] "s4a" inbPlain 10 2 "r4a" false).response.body = "hello" :=
  ⟨(c4_amended_configured_response dbW4a [] [] "s4a" inbPlain 10 2 "r4a" epW4a
      rfl rfl rfl).1 201 rfl (by decide),
   (c4_amended_configured_response dbW4a [] [] "s4a" inbPlain 10 2 "r4a" epW4a
      rfl rfl rfl).2.2.1 "hello" rfl (by decide)⟩

/-! ## Claim C5 -/

/-- `setHeader` appends when no existing header matches case-insensitively,
so a valid, duplicate-free entry list applies as a direct map with `true`. -/
theorem applyHeadersAcc_clean (fields : List (String × JsonVal)) :
    ∀ hs : List (String × String),
    (∀ kv ∈ fields, validHeaderName kv.1 = true ∧ validHeaderValue (jsString kv.2) = true) →
    (∀ p ∈ hs, ∀ kv ∈ fields, strToLower p.1 ≠ strToLower kv.1) →
    (fields.map (fun kv => strToLower kv.1)).Nodup →
    applyHeadersAcc hs fields
      = (hs ++ fields.map (fun kv => (kv.1, jsString kv.2)), true) := by
  induction fields with
  | nil =>
      intro hs _ _ _
      simp [applyHeadersAcc]
  | cons kv rest ih =>
      intro hs hvalid hdisj hnodup
      obtain ⟨k, v⟩ := kv
      have hv := hvalid (k, v) (by simp)
      have hany : hs.any (fun p => strToLower p.1 == strToLower k) = false := by
        rw [List.any_eq_false]
        intro p hp
        simp only [beq_iff_eq]
        exact hdisj p hp (k, v) (by simp)
      have hnodup' : strToLower k ∉ rest.map (fun kv => strToLower kv.1) ∧
          (rest.map (fun kv => strToLower kv.1)).Nodup := by
        rw [List.map_cons, List.nodup_cons] at hnodup
        exact hnodup
      have hset : nodeSetHeader hs k (jsString v) = hs ++ [(k, jsString v)] := by
        unfold nodeSetHeader
        rw [hany]
        simp
      have hstep : applyHeadersAcc hs ((k, v) :: rest)
          = applyHeadersAcc (nodeSetHeader hs k (jsString v)) rest := by
        show (if validHeaderName k && validHeaderValue (jsString v) then
                applyHeadersAcc (nodeSetHeader hs k (jsString v)) rest
              else (hs, false))
            = applyHeadersAcc (nodeSetHeader hs k (jsString v)) rest
        rw [hv.1, hv.2]
        rfl
      rw [hstep, hset,
          ih (hs ++ [(k, jsString v)])
            (fun kv hkv => hvalid kv (by simp [hkv]))
            (by
              intro p hp kv2 hkv2
              rcases List.mem_append.mp hp with hp' | hp'
              · exact hdisj p hp' kv2 (by simp [hkv2])
              · have hpk : p.1 = k := by
                  simp at hp'
                  rw [hp']
                intro heq
                apply hnodup'.1
                rw [hpk] at heq
                rw [heq]
                exact List.mem_map_of_mem _ hkv2)
            hnodup'.2]
      simp

/-- Fixture: an endpoint whose `responseHeaders` configuration is not a flat
string-to-string mapping (a numeric value). -/
def epW5 : Endpoint :=
  { id := "ep5", userId := none, uniqueSlug := "s5", name := none, description := none,
    customDomain := none, expiresAt := none, maxRequests := some 100,
    responseStatus := some 201,
    responseHeaders := some (.obj [("X-Rate-Limit", .num 42)]),
    responseBody := some "hello", forwardUrl := none, isActive := true,
    createdAt := 0, updatedAt := 0 }

/-- Fixture database for the C5 counterexample. -/
def dbW5 : Db := { endpoints := [epW5], requests := [] }

/-- C5 counterexample: with a malformed (number-valued) `responseHeaders`
mapping, the synthesizer does NOT fail closed to the default response — the
caller receives the configured 201 "hello" with the header applied as the
coerced string "42". No ConfigError exists on this path (nothing throws,
nothing is logged). -/
theorem c5_counterexample_not_fail_closed :
    (handleWebhook dbW5 [] "s5" inbPlain 10 2 "r5" false).response
      = { status := 201, headers := [("X-Rate-Limit", "42")], body := "hello" } ∧
    (handleWebhook dbW5 [] "s5" inbPlain 10 2 "r5" false).response
      ≠ { status := 200, headers := [], body := "OK" } := by
  constructor
  · rfl
  · decide

/-- C5 (amended): a `responseHeaders` configuration that parses as a JSON
object is applied entry by entry regardless of value types — each value is
coerced to a string by JavaScript string conversion and set as a header —
and the configured status and body are returned (no fail-closed default, no
error surfaced), provided the coerced names and values are valid header
tokens and the names are case-insensitively distinct. -/
theorem c5_amended_headers_applied_coerced (db : Db) (rooms : RoomState) (slug : String)
    (inb : Inbound) (now elapsed : Int) (newId : String) (e : Endpoint)
    (fields : List (String × JsonVal))
    (hfind : getEndpointBySlug db slug = some e) (hact : e.isActive = true)
    (hhdr : e.responseHeaders = some (.obj fields))
    (hvalid : ∀ kv ∈ fields, validHeaderName kv.1 = true ∧ validHeaderValue (jsString kv.2) = true)
    (hnodup : (fields.map (fun kv => strToLower kv.1)).Nodup) :
    (handleWebhook db rooms slug inb now elapsed newId false).response
      = { status := jsOrInt e.responseStatus 200
          headers := fields.map (fun kv => (kv.1, jsString kv.2))
          body := jsOrStr e.responseBody "OK" } := by
  rw [handleWebhook_accepted db rooms slug inb now elapsed newId e hfind hact]
  have hsyn : synthesizeHeaders e = (fields.map (fun kv => (kv.1, jsString kv.2)), true) := by
    unfold synthesizeHeaders
    rw [hhdr]
    show applyHeadersAcc [] fields = _
    rw [applyHeadersAcc_clean fields [] hvalid (by intro p hp; simp at hp) hnodup]
    simp
  simp [synthesizeResponse, hsyn]

/-- Fixture: an endpoint with number- and boolean-valued response headers for
the C5 witness. -/
def epW5a : Endpoint :=
  { id := "ep5a", userId := none, uniqueSlug := "s5a", name := none, description := none,
    customDomain := none, expiresAt := none, maxRequests := some 100,
    responseStatus := some 202,
    responseHeaders := some (.obj [("X-Num", .num 7), ("X-Flag", .jbool true)]),
    responseBody := some "ok!", forwardUrl := none, isActive := true,
    createdAt := 0, updatedAt := 0 }

/-- Fixture database for the C5 witness. -/
def dbW5a : Db := { endpoints := [epW5a], requests := [] }

/-- Witness for the amended C5: number and boolean header values are coerced
to "7" and "true" and the configured 202 "ok!" reply goes out. -/
theorem c5_amended_witness :
    (handleWebhook dbW5a [] "s5a" inbPlain 10 2 "r5a" false).response
      = { status := 202, headers := [("X-Num", "7"), ("X-Flag", "true")], body := "ok!" } := by
  have h := c5_amended_headers_applied_coerced dbW5a [] "s5a" inbPlain 10 2 "r5a" epW5a
    [("X-Num", .num 7), ("X-Flag", .jbool true)] rfl rfl rfl (by decide) (by decide)
  rw [h]
  rfl

/-! ## Claim C2 -/

/-- C2: in every run of the ingestion handler, any `new-request` (dashboard)
or `tunnel-request` (tunnel) publish in the trace is strictly preceded by the
successful persist of a record with the same id; the published record's id is
present in the post-state store, and — whenever the endpoint's stored rows
number at most 100, the listing cap — a subsequent history fetch via
`getRequests` returns it. -/
theorem c2_publish_after_persist (db : Db) (rooms : RoomState) (slug : String) (inb : Inbound)
    (now elapsed : Int) (newId : String) (dbFail : Bool) (i : Nat) (eid : String) (r : Request)
    (hemit : (handleWebhook db rooms slug inb now elapsed newId dbFail).trace.get? i
               = some (.emitDashboard eid r) ∨
             (handleWebhook db rooms slug inb now elapsed newId dbFail).trace.get? i
               = some (.emitTunnel eid r)) :
    (∃ j, j < i ∧ ∃ r₀,
      (handleWebhook db rooms slug inb now elapsed newId dbFail).trace.get? j
        = some (.persist r₀) ∧ r₀.id = r.id) ∧
    r.id ∈ (handleWebhook db rooms slug inb now elapsed newId dbFail).db.requests.map
      Request.id ∧
    (((handleWebhook db rooms slug inb now elapsed newId dbFail).db.requests.filter
        (fun q => q.endpointId == eid)).length ≤ 100 →
      r.id ∈ (getRequests (handleWebhook db rooms slug inb now elapsed newId dbFail).db
        eid).map Request.id) := by
  cases hfind : getEndpointBySlug db slug with
  | none =>
      have hw : handleWebhook db rooms slug inb now elapsed newId dbFail =
          { db := db, trace := [.respond 404 notFoundResponse.body],
            response := notFoundResponse, dashboardDelivery := [], tunnelDelivery := [] } := by
        unfold handleWebhook
        rw [hfind]
      rw [hw] at hemit
      rcases hemit with h | h <;> rcases i with _ | i <;> simp at h
  | some e =>
      by_cases hact : e.isActive
      · by_cases hfail : dbFail
        · have hw : handleWebhook db rooms slug inb now elapsed newId dbFail =
              { db := db, trace := [.respond 500 "Internal server error"],
                response := serverErrorResponse [], dashboardDelivery := [],
                tunnelDelivery := [] } := by
            unfold handleWebhook
            rw [hfind]
            simp [hact, hfail]
          rw [hw] at hemit
          rcases hemit with h | h <;> rcases i with _ | i <;> simp at h
        · rw [Bool.not_eq_true] at hfail
          subst hfail
          have hw := handleWebhook_accepted db rooms slug inb now elapsed newId e hfind hact
          rw [hw] at hemit ⊢
          dsimp only at hemit ⊢
          have key : eid = e.id →
              r = { storageCreateRequest newId now (mkRequestData e inb) with
                      processingTimeMs := some elapsed } →
              0 < i →
              (∃ j, j < i ∧ ∃ r₀,
                ([Action.persist (storageCreateRequest newId now (mkRequestData e inb)),
                  .emitDashboard e.id
                    { storageCreateRequest newId now (mkRequestData e inb) with
                        processingTimeMs := some elapsed },
                  .emitTunnel e.id
                    { storageCreateRequest newId now (mkRequestData e inb) with
                        processingTimeMs := some elapsed },
                  .respond (synthesizeResponse e).status
                    (synthesizeResponse e).body].get? j)
                  = some (.persist r₀) ∧ r₀.id = r.id) ∧
              r.id ∈ (db.requests
                ++ [storageCreateRequest newId now (mkRequestData e inb)]).map Request.id ∧
              (((db.requests ++ [storageCreateRequest newId now (mkRequestData e inb)]).filter
                  (fun q => q.endpointId == eid)).length ≤ 100 →
                r.id ∈ (getRequests
                  { db with requests :=
                      db.requests ++ [storageCreateRequest newId now (mkRequestData e inb)] }
                  eid).map Request.id) := by
            intro heid hr hi
            subst heid
            have hid : r.id = (storageCreateRequest newId now (mkRequestData e inb)).id := by
              rw [hr]
            refine ⟨⟨0, hi, storageCreateRequest newId now (mkRequestData e inb), rfl,
                     hid.symm⟩, ?_, ?_⟩
            · rw [hid]
              exact List.mem_map_of_mem _ (List.mem_append_right _ (by simp))
            · intro h100
              rw [hid]
              have hsavedmem : storageCreateRequest newId now (mkRequestData e inb) ∈
                  (db.requests ++ [storageCreateRequest newId now (mkRequestData e inb)]).filter
                    (fun q => q.endpointId == e.id) := by
                apply List.mem_filter.mpr
                refine ⟨List.mem_append_right _ (by simp), ?_⟩
                simp [storageCreateRequest, mkRequestData]
              have hsorted : storageCreateRequest newId now (mkRequestData e inb) ∈
                  List.insertionSort newerFirst
                    ((db.requests
                      ++ [storageCreateRequest newId now (mkRequestData e inb)]).filter
                      (fun q => q.endpointId == e.id)) :=
                (List.perm_insertionSort newerFirst _).mem_iff.mpr hsavedmem
              have hlen : (List.insertionSort newerFirst
                  ((db.requests
                    ++ [storageCreateRequest newId now (mkRequestData e inb)]).filter
                    (fun q => q.endpointId == e.id))).length ≤ 100 := by
                rw [(List.perm_insertionSort newerFirst _).length_eq]
                exact h100
              unfold getRequests
              rw [List.take_of_length_le hlen]
              exact List.mem_map_of_mem _ hsorted
          rcases hemit with h | h <;> rcases i with _ | _ | _ | _ | i <;> simp at h
          · exact key h.1.symm h.2.symm (by omega)
          · exact key h.1.symm h.2.symm (by omega)
      · have hw : handleWebhook db rooms slug inb now elapsed newId dbFail =
            { db := db, trace := [.respond 404 notFoundResponse.body],
              response := notFoundResponse, dashboardDelivery := [],
              tunnelDelivery := [] } := by
          unfold handleWebhook
          rw [hfind]
          simp [hact]
        rw [hw] at hemit
        rcases hemit with h | h <;> rcases i with _ | i <;> simp at h

/-- Fixture endpoint for the C2 witness. -/
def epW2 : Endpoint :=
  { id := "ep2", userId := none, uniqueSlug := "s2", name := none, description := none,
    customDomain := none, expiresAt := none, maxRequests := some 100,
    responseStatus := some 200, responseHeaders := none, responseBody := none,
    forwardUrl := none, isActive := true, createdAt := 0, updatedAt := 0 }

/-- Fixture database for the C2 witness. -/
def dbW2 : Db := { endpoints := [epW2], requests := [] }

/-- Witness for C2 at a concrete run: the `new-request` publish at trace
index 1 is preceded by the persist at index 0, and the published id is
fetchable afterwards. -/
theorem c2_publish_after_persist_witness :
    (∃ j, j < 1 ∧ ∃ r₀,
      (handleWebhook dbW2 [] "s2" inbPlain 10 3 "r2" false).trace.get? j
        = some (.persist r₀) ∧
      r₀.id = ({ storageCreateRequest "r2" 10 (mkRequestData epW2 inbPlain) with
                   processingTimeMs := some 3 } : Request).id) ∧
    ({ storageCreateRequest "r2" 10 (mkRequestData epW2 inbPlain) with
         processingTimeMs := some 3 } : Request).id
      ∈ (handleWebhook dbW2 [] "s2" inbPlain 10 3 "r2" false).db.requests.map Request.id ∧
    (((handleWebhook dbW2 [] "s2" inbPlain 10 3 "r2" false).db.requests.filter
        (fun q => q.endpointId == "ep2")).length ≤ 100 →
      ({ storageCreateRequest "r2" 10 (mkRequestData epW2 inbPlain) with
           processingTimeMs := some 3 } : Request).id
        ∈ (getRequests (handleWebhook dbW2 [] "s2" inbPlain 10 3 "r2" false).db "ep2").map
            Request.id) :=
  c2_publish_after_persist dbW2 [] "s2" inbPlain 10 3 "r2" false 1 "ep2"
    { storageCreateRequest "r2" 10 (mkRequestData epW2 inbPlain) with
        processingTimeMs := some 3 }
    (Or.inl rfl)

/-! ## Claim C6 -/

/-- A list is an infix of itself. -/
theorem infixSelf (v : List Char) : v <:+: v := ⟨[], [], by simp⟩

/-- Infixes extend to the right. -/
theorem infixExtendRight (v s t : List Char) (h : v <:+: s) : v <:+: s ++ t := by
  obtain ⟨a, b, rfl⟩ := h
  exact ⟨a, b ++ t, by simp⟩

/-- Infixes extend to the left. -/
theorem infixExtendLeft (v s t : List Char) (h : v <:+: s) : v <:+: t ++ s := by
  obtain ⟨a, b, rfl⟩ := h
  exact ⟨t ++ a, b, by simp⟩

/-- A value already inside a joined header string survives further joining. -/
theorem retainedGrow (v old sep w : String) (h : v.data <:+: old.data) :
    v.data <:+: (old ++ sep ++ w).data := by
  rw [String.data_append, String.data_append]
  exact infixExtendRight _ _ _ (infixExtendRight _ _ _ h)

/-- A newly joined value is an infix of the joined header string. -/
theorem retainedNew (w old sep : String) : w.data <:+: (old ++ sep ++ w).data := by
  rw [String.data_append, String.data_append]
  exact infixExtendLeft _ _ _ (infixSelf _)

/-- Values provided for a header on a cons cell of the raw list. -/
theorem valuesOf_cons (k n w : String) (rest : List (String × String)) :
    valuesOf k ((n, w) :: rest)
      = if strToLower n = k then w :: valuesOf k rest else valuesOf k rest := by
  simp only [valuesOf, List.filter_cons]
  by_cases h : strToLower n = k
  · rw [if_pos (by simp [h]), if_pos h, List.map_cons]
  · rw [if_neg (by simp [h]), if_neg h]

/-- Adding a header under a different key leaves a key's lookup unchanged. -/
theorem lookupHeader_add_ne (k' v k : String) (h : k' ≠ k) :
    ∀ m, lookupHeader (addIncomingHeaderL k' v m) k = lookupHeader m k := by
  intro m
  induction m with
  | nil => simp [addIncomingHeaderL, lookupHeader, h]
  | cons p rest ih =>
      obtain ⟨k₀, hv⟩ := p
      have hne : k₀ = k' → ¬(k₀ = k) := by
        intro he hc
        exact h (he ▸ hc)
      by_cases hk : k₀ = k'
      · cases hv with
        | single old =>
            by_cases hd : k' ∈ nodeDiscardDupHeaders
            · simp only [addIncomingHeaderL, if_pos hk, if_pos hd]
            · simp only [addIncomingHeaderL, if_pos hk, if_neg hd, lookupHeader]
              rw [if_neg h, if_neg (hne hk)]
        | multi xs =>
            simp only [addIncomingHeaderL, if_pos hk, lookupHeader]
            rw [if_neg h, if_neg (hne hk)]
      · simp only [addIncomingHeaderL, if_neg hk, lookupHeader]
        by_cases hk2 : k₀ = k
        · rw [if_pos hk2, if_pos hk2]
        · rw [if_neg hk2, if_neg hk2]
          exact ih

/-- Adding under an absent key appends a fresh value of the right shape. -/
theorem lookupHeader_add_none (k v : String) :
    ∀ m, lookupHeader m k = none →
      lookupHeader (addIncomingHeaderL k v m) k
        = some (if k = "set-cookie" then .multi [v] else .single v) := by
  intro m
  induction m with
  | nil => intro _; simp [addIncomingHeaderL, lookupHeader]
  | cons p rest ih =>
      obtain ⟨k₀, hv⟩ := p
      intro h
      by_cases hk : k₀ = k
      · rw [lookupHeader, if_pos hk] at h
        exact absurd h (by simp)
      · rw [lookupHeader, if_neg hk] at h
        simp only [addIncomingHeaderL, if_neg hk, lookupHeader, if_neg hk]
        exact ih h

/-- Adding a duplicate of a joined (non-discarded) header joins the value. -/
theorem lookupHeader_add_single (k v old : String) (hnd : k ∉ nodeDiscardDupHeaders) :
    ∀ m, lookupHeader m k = some (.single old) →
      lookupHeader (addIncomingHeaderL k v m) k
        = some (.single (old ++ nodeJoinSep k ++ v)) := by
  intro m
  induction m with
  | nil => intro h; simp [lookupHeader] at h
  | cons p rest ih =>
      obtain ⟨k₀, hv⟩ := p
      intro h
      by_cases hk : k₀ = k
      · rw [lookupHeader, if_pos hk, Option.some_inj] at h
        subst h
        subst hk
        simp [addIncomingHeaderL, hnd, lookupHeader]
      · rw [lookupHeader, if_neg hk] at h
        simp only [addIncomingHeaderL, if_neg hk, lookupHeader, if_neg hk]
        exact ih h

/-- Adding a duplicate of an array-valued header pushes onto the array. -/
theorem lookupHeader_add_multi (k v : String) (xs : List String) :
    ∀ m, lookupHeader m k = some (.multi xs) →
      lookupHeader (addIncomingHeaderL k v m) k = some (.multi (xs ++ [v])) := by
  intro m
  induction m with
  | nil => intro h; simp [lookupHeader] at h
  | cons p rest ih =>
      obtain ⟨k₀, hv⟩ := p
      intro h
      by_cases hk : k₀ = k
      · rw [lookupHeader, if_pos hk, Option.some_inj] at h
        subst h
        subst hk
        simp [addIncomingHeaderL, lookupHeader]
      · rw [lookupHeader, if_neg hk] at h
        simp only [addIncomingHeaderL, if_neg hk, lookupHeader, if_neg hk]
        exact ih h

/-- The shape invariant of `req.headers` at key `k`: only `set-cookie` is
array-valued. -/
def wfAt (m : List (String × HeaderValue)) (k : String) : Prop :=
  lookupHeader m k = none ∨
  (∃ s, lookupHeader m k = some (.single s) ∧ k ≠ "set-cookie") ∨
  (∃ xs, lookupHeader m k = some (.multi xs) ∧ k = "set-cookie")

/-- Combining raw headers starting from an accumulated map. -/
def combineFrom (m : List (String × HeaderValue)) (raw : List (String × String)) :
    List (String × HeaderValue) :=
  raw.foldl (fun m p => addIncomingHeaderL (strToLower p.1) p.2 m) m

/-- Core preservation: every value provided for a non-discarded header (and
every value already retained in the accumulator) is retained, as an array
member or an infix of the joined string, after combining the remaining raw
headers. -/
theorem foldRetain (k : String) (hnd : k ∉ nodeDiscardDupHeaders) :
    ∀ (raw : List (String × String)) (m : List (String × HeaderValue)) (v : String),
      wfAt m k →
      (v ∈ valuesOf k raw ∨ ∃ hv, lookupHeader m k = some hv ∧ valueRetained hv v) →
      ∃ hv, lookupHeader (combineFrom m raw) k = some hv ∧ valueRetained hv v := by
  intro raw
  induction raw with
  | nil =>
      intro m v _ hdis
      rcases hdis with hin | h
      · simp [valuesOf] at hin
      · exact h
  | cons p rest ih =>
      intro m v hwf hdis
      obtain ⟨n, w⟩ := p
      show ∃ hv, lookupHeader (combineFrom (addIncomingHeaderL (strToLower n) w m) rest) k
          = some hv ∧ valueRetained hv v
      by_cases hk : strToLower n = k
      · rw [hk]
        have hstep : ∀ u : String,
            (u = w ∨ (∃ hv, lookupHeader m k = some hv ∧ valueRetained hv u)) →
            ∃ hv, lookupHeader (addIncomingHeaderL k w m) k = some hv ∧ valueRetained hv u := by
          intro u hu
          rcases hwf with hnone | ⟨s, hs, hnsc⟩ | ⟨xs, hxs, hsc⟩
          · rcases hu with huw | ⟨hv₀, hlk, _⟩
            · rw [lookupHeader_add_none k w m hnone]
              by_cases hsc : k = "set-cookie"
              · refine ⟨_, rfl, ?_⟩
                rw [if_pos hsc]
                simp only [valueRetained]
                simp [huw]
              · refine ⟨_, rfl, ?_⟩
                rw [if_neg hsc]
                simp only [valueRetained]
                rw [huw]
            · rw [hnone] at hlk
              exact absurd hlk (by simp)
          · rw [lookupHeader_add_single k w s hnd m hs]
            rcases hu with huw | ⟨hv₀, hlk, hret⟩
            · refine ⟨_, rfl, ?_⟩
              simp only [valueRetained]
              rw [huw]
              exact retainedNew w s (nodeJoinSep k)
            · rw [hs, Option.some_inj] at hlk
              subst hlk
              simp only [valueRetained] at hret
              refine ⟨_, rfl, ?_⟩
              simp only [valueRetained]
              exact retainedGrow u s (nodeJoinSep k) w hret
          · rw [lookupHeader_add_multi k w xs m hxs]
            rcases hu with huw | ⟨hv₀, hlk, hret⟩
            · refine ⟨_, rfl, ?_⟩
              simp only [valueRetained]
              simp [huw]
            · rw [hxs, Option.some_inj] at hlk
              subst hlk
              simp only [valueRetained] at hret
              refine ⟨_, rfl, ?_⟩
              simp only [valueRetained]
              exact List.mem_append_left _ hret
        have hwf' : wfAt (addIncomingHeaderL k w m) k := by
          rcases hwf with hnone | ⟨s, hs, hnsc⟩ | ⟨xs, hxs, hsc⟩
          · rw [wfAt, lookupHeader_add_none k w m hnone]
            by_cases hsc : k = "set-cookie"
            · rw [if_pos hsc]
              exact Or.inr (Or.inr ⟨[w], rfl, hsc⟩)
            · rw [if_neg hsc]
              exact Or.inr (Or.inl ⟨w, rfl, hsc⟩)
          · rw [wfAt, lookupHeader_add_single k w s hnd m hs]
            exact Or.inr (Or.inl ⟨_, rfl, hnsc⟩)
          · rw [wfAt, lookupHeader_add_multi k w xs m hxs]
            exact Or.inr (Or.inr ⟨_, rfl, hsc⟩)
        rcases hdis with hin | hold
        · rw [valuesOf_cons, if_pos hk] at hin
          rcases List.mem_cons.mp hin with huw | hin'
          · exact ih (addIncomingHeaderL k w m) v hwf' (Or.inr (hstep v (Or.inl huw)))
          · exact ih (addIncomingHeaderL k w m) v hwf' (Or.inl hin')
        · exact ih (addIncomingHeaderL k w m) v hwf' (Or.inr (hstep v (Or.inr hold)))
      · have hval : valuesOf k ((n, w) :: rest) = valuesOf k rest := by
          rw [valuesOf_cons, if_neg hk]
        have hlk := lookupHeader_add_ne (strToLower n) w k hk m
        have hwf' : wfAt (addIncomingHeaderL (strToLower n) w m) k := by
          rw [wfAt, hlk]
          exact hwf
        rw [hval] at hdis
        rcases hdis with hin | ⟨hv₀, hl, hret⟩
        · exact ih _ v hwf' (Or.inl hin)
        · exact ih _ v hwf' (Or.inr ⟨hv₀, by rw [hlk]; exact hl, hret⟩)

/-- C6: for every accepted ingestion request whose transport-level header map
is Node's combination of the raw header list, and for every header name that
Node does not single-out for duplicate-discarding, every provided value for
that name is preserved in the stored CapturedRequest: it appears in the
stored header map, as an array member for array-valued headers
(`set-cookie`) or inside the joined string value otherwise — never dropped. -/
theorem c6_duplicate_header_values_preserved (db : Db) (rooms : RoomState) (slug : String)
    (inb : Inbound) (now elapsed : Int) (newId : String) (e : Endpoint)
    (raw : List (String × String)) (name v : String)
    (hfind : getEndpointBySlug db slug = some e) (hact : e.isActive = true)
    (hh : inb.headers = nodeCombineHeaders raw)
    (hnd : strToLower name ∉ nodeDiscardDupHeaders)
    (hv : v ∈ valuesOf (strToLower name) raw) :
    ∃ rec ∈ (handleWebhook db rooms slug inb now elapsed newId false).db.requests,
      rec.id = newId ∧
      ∃ hdr, lookupHeader rec.headers (strToLower name) = some hdr
        ∧ valueRetained hdr v := by
  rw [handleWebhook_accepted db rooms slug inb now elapsed newId e hfind hact]
  refine ⟨storageCreateRequest newId now (mkRequestData e inb),
          List.mem_append_right _ (by simp), rfl, ?_⟩
  show ∃ hdr, lookupHeader inb.headers (strToLower name) = some hdr ∧ valueRetained hdr v
  rw [hh]
  exact foldRetain (strToLower name) hnd raw [] v (Or.inl rfl) (Or.inl hv)

/-- Fixture endpoint for the C6 witness. -/
def epW6 : Endpoint :=
  { id := "ep6", userId := none, uniqueSlug := "s6", name := none, description := none,
    customDomain := none, expiresAt := none, maxRequests := some 100,
    responseStatus := some 200, responseHeaders := none, responseBody := none,
    forwardUrl := none, isActive := true, createdAt := 0, updatedAt := 0 }

/-- Fixture database for the C6 witness. -/
def dbW6 : Db := { endpoints := [epW6], requests := [] }

/-- The raw duplicated signature headers of the C6 witness. -/
def rawW6 : List (String × String) := [("X-Signature", "v1"), ("X-Signature", "v2")]

/-- Fixture inbound request carrying two `X-Signature` headers. -/
def inbW6 : Inbound :=
  { method := "POST", originalUrl := "/webhook/s6", headers := nodeCombineHeaders rawW6,
    body := none, query := [], contentType := none, ip := none, userAgent := none }

/-- Witness for C6: both values of a duplicated `X-Signature` header appear in
the stored record (Node joins them as `v1, v2`). -/
theorem c6_duplicate_header_values_preserved_witness :
    lookupHeader (nodeCombineHeaders rawW6) (strToLower "X-Signature")
      = some (.single "v1, v2") ∧
    (∃ rec ∈ (handleWebhook dbW6 [] "s6" inbW6 10 2 "r6" false).db.requests,
      rec.id = "r6" ∧
      ∃ hdr, lookupHeader rec.headers (strToLower "X-Signature") = some hdr
        ∧ valueRetained hdr "v1") ∧
    (∃ rec ∈ (handleWebhook dbW6 [] "s6" inbW6 10 2 "r6" false).db.requests,
      rec.id = "r6" ∧
      ∃ hdr, lookupHeader rec.headers (strToLower "X-Signature") = some hdr
        ∧ valueRetained hdr "v2") :=
  ⟨by decide,
   c6_duplicate_header_values_preserved dbW6 [] "s6" inbW6 10 2 "r6" epW6 rawW6
     "X-Signature" "v1" rfl rfl rfl (by decide) (by decide),
   c6_duplicate_header_values_preserved dbW6 [] "s6" inbW6 10 2 "r6" epW6 rawW6
     "X-Signature" "v2" rfl rfl rfl (by decide) (by decide)⟩

end WebhookSite
